import Mathlib

/-!
# Verification of the subscription/usage billing core

Shallow embedding of the billing core of a multi-tenant SaaS repository
(Supabase + Stripe + Next.js) and proofs about it.

The embedded code:
* `UsageTracker.trackUsage`, `UsageTracker.getUsageSummary`,
  `UsageTracker.batchTrackUsage` (usage ledger over the `usage_records` table);
* `updateSubscriptionSeats` (per-seat line item management on a provider
  subscription) and the `update-seats` / `report-usage` HTTP routes;
* the Stripe webhook `POST` handler with `handleSubscriptionUpdate`,
  `handleSubscriptionDeleted`, `handleInvoiceFinalized`,
  `handleInvoicePaymentFailed`, `handleCheckoutCompleted`.

Modelling conventions:
* timestamps are `Nat` (the code passes ISO strings whose store-level
  comparison order agrees with the underlying instants);
* database-assigned row ids are modelled by a `nextId` counter in the store;
* the store (`usage_records` rows, `organizations` rows) is an explicit value
  threaded through each operation; a supabase `insert` is total in the model
  (the transient-failure path is out of scope of the claims proved here);
* `.single()` on a supabase query yields a row exactly when the filtered
  result has exactly one row, and `null` (here `none`) otherwise — on zero or
  several rows the destructured `data` is `null`;
* JS `||` / falsiness on strings is modelled explicitly where the code
  relies on it: `jsStrFalsy` in the routes, and the `if (idempotencyKey)`
  truthiness guard in `trackUsage`/`stepCall`, under which the empty-string
  key skips the duplicate check.
-/

/-- A row of the `usage_records` table. The `stripe_usage_record_id` column is
the one `trackUsage` stores the caller's idempotency key in. -/
structure UsageRecord where
  id : Nat
  organization_id : String
  dimension : String
  quantity : Int
  timestamp : Nat
  stripe_usage_record_id : Option String
  deriving Repr, DecidableEq

/-- The `usage_records` table: rows plus the id the store will assign next. -/
structure UsageStore where
  nextId : Nat
  records : List UsageRecord
  deriving Repr, DecidableEq

/-- The empty `usage_records` table. -/
def UsageStore.empty : UsageStore := { nextId := 0, records := [] }

/-- Rows matching `.eq("organization_id", org).eq("dimension", dim)
.eq("stripe_usage_record_id", key)` — the duplicate check's filter in
`trackUsage`. -/
def filterTriple (l : List UsageRecord) (org dim key : String) : List UsageRecord :=
  l.filter fun r =>
    r.organization_id = org ∧ r.dimension = dim ∧ r.stripe_usage_record_id = some key

/-- Number of rows carrying the (organization, dimension, idempotency-key)
triple. -/
def tripleCount (l : List UsageRecord) (org dim key : String) : Nat :=
  (filterTriple l org dim key).length

/-- Supabase `.single()`: a row exactly when the result set has exactly one
row; on zero rows or several rows the call errors and the destructured `data`
is `null`. -/
def singleRow {α : Type} : List α → Option α
  | [x] => some x
  | _ => none

/-- Result shape of `trackUsage`: `{ id, alreadyRecorded }`. -/
structure TrackResult where
  id : Nat
  alreadyRecorded : Bool
  deriving Repr, DecidableEq

/-- The insert performed by `trackUsage` when no duplicate was found: the
store assigns the next id and appends the row. -/
def insertUsage (store : UsageStore) (org dim : String) (quantity : Int)
    (timestamp : Nat) (key : Option String) : TrackResult × UsageStore :=
  ({ id := store.nextId, alreadyRecorded := false },
   { nextId := store.nextId + 1,
     records := store.records ++
       [{ id := store.nextId, organization_id := org, dimension := dim,
          quantity := quantity, timestamp := timestamp,
          stripe_usage_record_id := key }] })

/-- `UsageTracker.trackUsage(dimension, quantity, timestamp?, idempotencyKey?)`.
The duplicate check runs under the source's `if (idempotencyKey)` guard,
which is JS truthiness: the check is skipped not only for a missing key but
also for the empty-string key (which is nevertheless stored on the inserted
row). When the check runs and `.single()` yields a row, the method returns
`{ id: existing.id, alreadyRecorded: true }` without writing; in every other
case it inserts the row. The `new Date()` default for a missing `timestamp`
argument is resolved by the caller and passed as `timestamp` here. -/
def trackUsage (org : String) (store : UsageStore) (dimension : String)
    (quantity : Int) (timestamp : Nat) (idempotencyKey : Option String) :
    TrackResult × UsageStore :=
  match idempotencyKey with
  | some key =>
    if key = "" then
      insertUsage store org dimension quantity timestamp (some key)
    else
      match singleRow (filterTriple store.records org dimension key) with
      | some existing => ({ id := existing.id, alreadyRecorded := true }, store)
      | none => insertUsage store org dimension quantity timestamp (some key)
  | none => insertUsage store org dimension quantity timestamp none

/-- Row shape returned by `getUsageSummary`'s `select("quantity, timestamp")`. -/
structure SummaryRow where
  quantity : Int
  timestamp : Nat
  deriving Repr, DecidableEq

/-- Ascending-timestamp order used by `.order("timestamp", { ascending: true })`. -/
def tsLe (a b : UsageRecord) : Prop := a.timestamp ≤ b.timestamp

instance : DecidableRel tsLe := fun a b => Nat.decLe a.timestamp b.timestamp

instance : IsTotal UsageRecord tsLe := ⟨fun a b => Nat.le_total a.timestamp b.timestamp⟩

instance : IsTrans UsageRecord tsLe := ⟨fun _ _ _ h h' => Nat.le_trans h h'⟩

/-- Result shape of `getUsageSummary`. -/
structure UsageSummary where
  totalUsage : Int
  recordCount : Nat
  records : List SummaryRow
  period_start : Nat
  period_end : Nat
  deriving Repr, DecidableEq

/-- `UsageTracker.getUsageSummary(dimension, startDate, endDate)`: selects
`quantity, timestamp` for this organization and dimension with
`.gte("timestamp", startDate).lte("timestamp", endDate)`, ordered by
timestamp ascending; totals with a `reduce` over the returned rows. -/
def getUsageSummary (org : String) (store : UsageStore) (dimension : String)
    (startDate endDate : Nat) : UsageSummary :=
  let data :=
    ((((store.records.filter fun r => r.organization_id = org).filter
        fun r => r.dimension = dimension).filter
        fun r => startDate ≤ r.timestamp).filter
        fun r => r.timestamp ≤ endDate).insertionSort tsLe |>.map
      fun r => ({ quantity := r.quantity, timestamp := r.timestamp } : SummaryRow)
  { totalUsage := data.foldl (fun sum r => sum + r.quantity) 0,
    recordCount := data.length,
    records := data,
    period_start := startDate,
    period_end := endDate }

/-- One element of the list passed to `batchTrackUsage`. -/
structure BatchItem where
  dimension : String
  quantity : Int
  timestamp : Nat
  idempotencyKey : Option String
  deriving Repr, DecidableEq

/-- `UsageTracker.batchTrackUsage(records)`: maps every input item to a row
(no duplicate check of any kind) and performs one `insert` of the whole list;
the store assigns consecutive ids. Returns the inserted rows. -/
def batchTrackUsage (org : String) (store : UsageStore) (items : List BatchItem) :
    List UsageRecord × UsageStore :=
  let usageRecords := items.enum.map fun p =>
    ({ id := store.nextId + p.1, organization_id := org,
       dimension := p.2.dimension, quantity := p.2.quantity,
       timestamp := p.2.timestamp,
       stripe_usage_record_id := p.2.idempotencyKey } : UsageRecord)
  (usageRecords,
   { nextId := store.nextId + items.length,
     records := store.records ++ usageRecords })

/-- A subscription line item as the handlers read it: its provider id, its
`price.id`, and its optional `quantity`. -/
structure Item where
  itemId : Nat
  priceId : String
  quantity : Option Nat
  deriving Repr, DecidableEq

/-- A provider subscription object as the handlers read it. -/
structure Subscription where
  id : String
  status : String
  metadata_organization_id : Option String
  items : List Item
  deriving Repr, DecidableEq

/-- A provider invoice object as the handlers read it. -/
structure Invoice where
  id : String
  metadata_organization_id : Option String
  deriving Repr, DecidableEq

/-- A provider checkout-session object as the handlers read it. -/
structure CheckoutSession where
  id : String
  metadata_organization_id : Option String
  deriving Repr, DecidableEq

/-- `STRIPE_CONFIG`: the configured plan price ids (`starter`, `pro`,
`enterprise`, in object-key order, each with its `priceId` from the
environment), the per-seat price id and the metered-usage price id. -/
structure StripeConfig where
  plans : List (String × String)
  perSeatPriceId : String
  meteredUsagePriceId : String
  deriving Repr, DecidableEq

/-- A row of the `organizations` table (the billing snapshot fields). -/
structure Organization where
  id : String
  stripe_customer_id : Option String
  stripe_subscription_id : Option String
  subscription_status : Option String
  subscription_plan : Option String
  seat_count : Nat
  updated_at : Nat
  deriving Repr, DecidableEq

/-- The `organizations` table. -/
abbrev OrgStore : Type := List Organization

/-- The per-seat line item lookup shared by `handleSubscriptionUpdate` and
`updateSubscriptionSeats`:
`subscription.items.data.find(item => item.price.id === perSeatPriceId)`. -/
def findPerSeatItem (cfg : StripeConfig) (items : List Item) : Option Item :=
  items.find? fun item => item.priceId = cfg.perSeatPriceId

/-- `handleSubscriptionUpdate`'s seat count:
`perSeatItem ? perSeatItem.quantity || 0 : 0`. -/
def seatCountOf (cfg : StripeConfig) (sub : Subscription) : Nat :=
  match findPerSeatItem cfg sub.items with
  | some item => item.quantity.getD 0
  | none => 0

/-- `handleSubscriptionUpdate`'s base item: the first line item whose price id
is neither the per-seat price nor the metered-usage price. -/
def findBaseItem (cfg : StripeConfig) (sub : Subscription) : Option Item :=
  sub.items.find? fun item =>
    item.priceId ≠ cfg.perSeatPriceId ∧ item.priceId ≠ cfg.meteredUsagePriceId

/-- The plan key whose configured `priceId` equals the given price id
(`Object.keys(STRIPE_CONFIG.plans).find(...)`), or `none`. -/
def planKeyFor (cfg : StripeConfig) (priceId : String) : Option String :=
  (cfg.plans.find? fun p => p.2 = priceId).map fun p => p.1

/-- `handleSubscriptionUpdate`'s `subscriptionPlan`: looked up from the base
item's price id when a base item exists, `planKey || null` otherwise. -/
def subscriptionPlanOf (cfg : StripeConfig) (sub : Subscription) : Option String :=
  match findBaseItem cfg sub with
  | some baseItem => planKeyFor cfg baseItem.priceId
  | none => none

/-- `handleSubscriptionUpdate(supabase, subscription)`: without an
`organization_id` in the subscription's metadata it logs and returns with no
write; otherwise it updates the organization row(s) with that id, overwriting
`stripe_subscription_id`, `subscription_status`, `subscription_plan`,
`seat_count` and `updated_at` (`new Date()` passed here as `now`). -/
def handleSubscriptionUpdate (cfg : StripeConfig) (sub : Subscription)
    (now : Nat) (store : OrgStore) : OrgStore :=
  match sub.metadata_organization_id with
  | none => store
  | some organizationId =>
    store.map fun o =>
      if o.id = organizationId then
        { o with
          stripe_subscription_id := some sub.id,
          subscription_status := some sub.status,
          subscription_plan := subscriptionPlanOf cfg sub,
          seat_count := seatCountOf cfg sub,
          updated_at := now }
      else o

/-- `handleSubscriptionDeleted(supabase, subscription)`: clears the
subscription id, sets status `"canceled"`, clears the plan and zeroes the
seat count on the organization named in the subscription's metadata. -/
def handleSubscriptionDeleted (sub : Subscription) (now : Nat)
    (store : OrgStore) : OrgStore :=
  match sub.metadata_organization_id with
  | none => store
  | some organizationId =>
    store.map fun o =>
      if o.id = organizationId then
        { o with
          stripe_subscription_id := none,
          subscription_status := some "canceled",
          subscription_plan := none,
          seat_count := 0,
          updated_at := now }
      else o

/-- `handleInvoiceFinalized(supabase, invoice)`: logs only, no store write. -/
def handleInvoiceFinalized (_invoice : Invoice) (store : OrgStore) : OrgStore :=
  store

/-- `handleInvoicePaymentFailed(supabase, invoice)`: overwrites
`subscription_status` with `"past_due"` (and `updated_at`) on the
organization named in the invoice's metadata; no other field is written. -/
def handleInvoicePaymentFailed (invoice : Invoice) (now : Nat)
    (store : OrgStore) : OrgStore :=
  match invoice.metadata_organization_id with
  | none => store
  | some organizationId =>
    store.map fun o =>
      if o.id = organizationId then
        { o with
          subscription_status := some "past_due",
          updated_at := now }
      else o

/-- `handleCheckoutCompleted(supabase, session)`: logs only, no store write. -/
def handleCheckoutCompleted (_session : CheckoutSession) (store : OrgStore) :
    OrgStore :=
  store

/-- A verified webhook event, as produced by
`stripe.webhooks.constructEvent`, dispatched on `event.type`. -/
inductive Event where
  | subscriptionCreated (sub : Subscription)
  | subscriptionUpdated (sub : Subscription)
  | subscriptionDeleted (sub : Subscription)
  | invoiceFinalized (invoice : Invoice)
  | invoicePaymentFailed (invoice : Invoice)
  | checkoutCompleted (session : CheckoutSession)
  | unrecognized (ty : String)
  deriving Repr, DecidableEq

/-- The webhook handler's `switch (event.type)` dispatch. -/
def processEvent (cfg : StripeConfig) (event : Event) (now : Nat)
    (store : OrgStore) : OrgStore :=
  match event with
  | .subscriptionCreated sub => handleSubscriptionUpdate cfg sub now store
  | .subscriptionUpdated sub => handleSubscriptionUpdate cfg sub now store
  | .subscriptionDeleted sub => handleSubscriptionDeleted sub now store
  | .invoiceFinalized invoice => handleInvoiceFinalized invoice store
  | .invoicePaymentFailed invoice => handleInvoicePaymentFailed invoice now store
  | .checkoutCompleted session => handleCheckoutCompleted session store
  | .unrecognized _ => store

/-- The webhook route `POST`: reads the raw body and the `stripe-signature`
header; a missing header is a 400; `stripe.webhooks.constructEvent`
(modelled by the `verify` parameter: raw body, signature, signing secret,
yielding an event exactly when the signature verifies) throwing is a 400; only
then is the event dispatched and `{ received: true }` (200) returned. The
handlers are total in the model, so the catch-all 500 path of the source is
never taken here. -/
def webhookPOST (verify : String → String → String → Option Event)
    (cfg : StripeConfig) (body : String) (signature : Option String)
    (secret : String) (now : Nat) (store : OrgStore) : Nat × OrgStore :=
  match signature with
  | none => (400, store)
  | some sig =>
    match verify body sig secret with
    | none => (400, store)
    | some event => (200, processEvent cfg event now store)

/-- `updateSubscriptionSeats(subscriptionId, seatCount)` acting on the
retrieved subscription's line items. If the per-seat item is found,
`stripe.subscriptionItems.update(perSeatItem.id, { quantity: seatCount })`
sets that item's quantity (the provider addresses items by id). Otherwise
`stripe.subscriptions.update` re-lists every existing item (id, price,
quantity unchanged) and adds one new item at the configured per-seat price
with the requested quantity; the provider assigns it the fresh id
`freshId`. -/
def updateSubscriptionSeats (cfg : StripeConfig) (items : List Item)
    (seatCount : Nat) (freshId : Nat) : List Item :=
  match findPerSeatItem cfg items with
  | some perSeatItem =>
    items.map fun item =>
      if item.itemId = perSeatItem.itemId then
        { item with quantity := some seatCount }
      else item
  | none =>
    (items.map fun item =>
      ({ itemId := item.itemId, priceId := item.priceId,
         quantity := item.quantity } : Item)) ++
    [{ itemId := freshId, priceId := cfg.perSeatPriceId,
       quantity := some seatCount }]

/-- JS falsiness of an optional string request field: absent or `""`. -/
def jsStrFalsy (s : Option String) : Bool := s.getD "" = ""

/-- Outcome of an HTTP route in the model: the response status and whether
the provider (Stripe) was called. -/
structure RouteOutcome where
  status : Nat
  providerCalled : Bool
  deriving Repr, DecidableEq

/-- The `update-seats` route `POST` body checks, in source order:
`!organizationId || seatCount === undefined` is a 400; `seatCount < 0` is a
400 ("Seat count must be non-negative"); then `requireOrganizationAccess`
(modelled by `accessOk`; on failure the helper redirects, surfaced here as a
303 with no provider call); a missing `organization.stripe_subscription_id`
is a 400; only then is `updateSubscriptionSeats` called (200). -/
def updateSeatsRoute (organizationId : Option String) (seatCount : Option Int)
    (accessOk : Bool) (subscriptionId : Option String) : RouteOutcome :=
  if jsStrFalsy organizationId ∨ seatCount = none then
    { status := 400, providerCalled := false }
  else if seatCount.getD 0 < 0 then
    { status := 400, providerCalled := false }
  else if ¬accessOk then
    { status := 303, providerCalled := false }
  else if subscriptionId = none then
    { status := 400, providerCalled := false }
  else
    { status := 200, providerCalled := true }

/-- The `report-usage` route `POST` checks, in source order:
`!organizationId || !dimension || quantity === undefined` is a 400;
`quantity < 0` is a 400 ("Quantity must be non-negative"); then
`requireOrganizationAccess` (303 on failure); a missing
`organization.stripe_subscription_id` is a 400; only then does the route call
the provider (`reportUsage`) and insert the `usage_records` row. Both the
provider call and the insert are reported through `providerCalled` /
`rowInserted`; up to the 200 path neither has happened. -/
structure ReportUsageOutcome where
  status : Nat
  providerCalled : Bool
  rowInserted : Bool
  deriving Repr, DecidableEq

/-- See `ReportUsageOutcome`. -/
def reportUsageRoute (organizationId : Option String) (dimension : Option String)
    (quantity : Option Int) (accessOk : Bool) (subscriptionId : Option String) :
    ReportUsageOutcome :=
  if jsStrFalsy organizationId ∨ jsStrFalsy dimension ∨ quantity = none then
    { status := 400, providerCalled := false, rowInserted := false }
  else if quantity.getD 0 < 0 then
    { status := 400, providerCalled := false, rowInserted := false }
  else if ¬accessOk then
    { status := 303, providerCalled := false, rowInserted := false }
  else if subscriptionId = none then
    { status := 400, providerCalled := false, rowInserted := false }
  else
    { status := 200, providerCalled := true, rowInserted := true }

/-! ## Interleaving model of concurrent `trackUsage` calls

`trackUsage` with an idempotency key performs two separate awaited store
operations: the duplicate-check `select ... .single()` and the `insert`.
Each is atomic at the store, but nothing makes the pair indivisible. A call
in flight is therefore a little state machine: not yet checked; checked (with
the id found, if any); finished (with its `alreadyRecorded` flag). -/

/-- The phase a single in-flight `trackUsage` call is in. -/
inductive CallPhase where
  | start
  | checked (found : Option Nat)
  | finished (alreadyRecorded : Bool)
  deriving Repr, DecidableEq

/-- One atomic store operation of an in-flight `trackUsage(dim, q, ts, key)`
call: from `start`, run the duplicate check — unless the key is the empty
string, in which case the source's `if (idempotencyKey)` truthiness guard
skips the check and the call's one store operation is the insert; from
`checked none`, run the insert; from `checked (some id)`, return the
duplicate without writing. -/
def stepCall (org dim : String) (quantity : Int) (timestamp : Nat)
    (key : String) : CallPhase → UsageStore → CallPhase × UsageStore
  | .start, store =>
    if key = "" then
      (.finished false, (insertUsage store org dim quantity timestamp (some key)).2)
    else
      (.checked ((singleRow (filterTriple store.records org dim key)).map
        fun existing => existing.id), store)
  | .checked none, store =>
    (.finished false, (insertUsage store org dim quantity timestamp (some key)).2)
  | .checked (some _), store => (.finished true, store)
  | .finished b, store => (.finished b, store)

/-- Run two concurrent `trackUsage` calls with identical arguments under an
explicit schedule: `true` steps call A, `false` steps call B. -/
def runTwo (org dim : String) (quantity : Int) (timestamp : Nat) (key : String) :
    List Bool → CallPhase → CallPhase → UsageStore →
    CallPhase × CallPhase × UsageStore
  | [], a, b, store => (a, b, store)
  | true :: rest, a, b, store =>
    let s := stepCall org dim quantity timestamp key a store
    runTwo org dim quantity timestamp key rest s.1 b s.2
  | false :: rest, a, b, store =>
    let s := stepCall org dim quantity timestamp key b store
    runTwo org dim quantity timestamp key rest a s.1 s.2

/-- Sequential retries of one `trackUsage` call: run it `n` more times with
identical arguments, keeping only the store. -/
def trackRetries (org dim : String) (quantity : Int) (timestamp : Nat)
    (key : String) : Nat → UsageStore → UsageStore
  | 0, store => store
  | n + 1, store =>
    trackRetries org dim quantity timestamp key n
      (trackUsage org store dim quantity timestamp (some key)).2

/-- The spec's closed-set filter for a summary window, as one predicate: the
organization, the dimension, and `startDate ≤ timestamp ≤ endDate`. -/
def closedWindow (org dim : String) (startDate endDate : Nat)
    (r : UsageRecord) : Prop :=
  r.organization_id = org ∧ r.dimension = dim ∧
    startDate ≤ r.timestamp ∧ r.timestamp ≤ endDate

instance (org dim : String) (s e : Nat) :
    DecidablePred (closedWindow org dim s e) := fun r => by
  unfold closedWindow; infer_instance

/-- Modelled from the spec's words, for comparison with the source's
`getUsageSummary`: `summarize(orgId, dimension, [start,end))` returns the sum
and count of `quantity` for records whose `timestamp` falls in the half-open
interval — `startDate ≤ timestamp < endDate`. -/
def specSummarizeHalfOpen (org : String) (store : UsageStore)
    (dimension : String) (startDate endDate : Nat) : Int × Nat :=
  let rows := store.records.filter fun r =>
    r.organization_id = org ∧ r.dimension = dimension ∧
      startDate ≤ r.timestamp ∧ r.timestamp < endDate
  ((rows.map UsageRecord.quantity).sum, rows.length)

lemma filterTriple_append (l l' : List UsageRecord) (org dim key : String) :
    filterTriple (l ++ l') org dim key =
      filterTriple l org dim key ++ filterTriple l' org dim key := by
  simp [filterTriple]

lemma filterTriple_nil_of_count_zero {l : List UsageRecord} {org dim key : String}
    (h : tripleCount l org dim key = 0) : filterTriple l org dim key = [] :=
  List.length_eq_zero.mp h

lemma tripleCount_append (l l' : List UsageRecord) (org dim key : String) :
    tripleCount (l ++ l') org dim key =
      tripleCount l org dim key + tripleCount l' org dim key := by
  simp [tripleCount, filterTriple_append]

/-- The chain of four `.filter` calls in `getUsageSummary` equals one filter
by the conjunction `closedWindow`. -/
lemma quad_filter_eq_closedWindow (l : List UsageRecord) (org dim : String)
    (s e : Nat) :
    ((((l.filter fun r => r.organization_id = org).filter
        fun r => r.dimension = dim).filter
        fun r => s ≤ r.timestamp).filter
        fun r => r.timestamp ≤ e) = l.filter (closedWindow org dim s e) := by
  simp only [List.filter_filter]
  apply List.filter_congr
  intro a _
  by_cases h1 : a.organization_id = org <;>
    by_cases h2 : a.dimension = dim <;>
    by_cases h3 : s ≤ a.timestamp <;>
    by_cases h4 : a.timestamp ≤ e <;>
    simp [closedWindow, h1, h2, h3, h4]

lemma foldl_add_quantity (l : List SummaryRow) (a : Int) :
    l.foldl (fun sum r => sum + r.quantity) a =
      a + (l.map SummaryRow.quantity).sum := by
  induction l generalizing a with
  | nil => simp
  | cons x xs ih => simp [List.foldl_cons, ih, add_assoc]

/-- `getUsageSummary`'s total is the sum of quantities over the rows in the
closed window. -/
lemma getUsageSummary_totalUsage (org dim : String) (store : UsageStore)
    (s e : Nat) :
    (getUsageSummary org store dim s e).totalUsage =
      ((store.records.filter (closedWindow org dim s e)).map
        UsageRecord.quantity).sum := by
  unfold getUsageSummary
  simp only [foldl_add_quantity, zero_add, List.map_map]
  rw [quad_filter_eq_closedWindow]
  have hperm :
      (((store.records.filter (closedWindow org dim s e)).insertionSort tsLe).map
        (SummaryRow.quantity ∘ fun r =>
          ({ quantity := r.quantity, timestamp := r.timestamp } : SummaryRow))).Perm
        ((store.records.filter (closedWindow org dim s e)).map
          UsageRecord.quantity) := by
    have := (List.perm_insertionSort tsLe
      (store.records.filter (closedWindow org dim s e))).map
      (SummaryRow.quantity ∘ fun r =>
        ({ quantity := r.quantity, timestamp := r.timestamp } : SummaryRow))
    simpa using this
  exact hperm.sum_eq

/-- `getUsageSummary`'s count is the number of rows in the closed window. -/
lemma getUsageSummary_recordCount (org dim : String) (store : UsageStore)
    (s e : Nat) :
    (getUsageSummary org store dim s e).recordCount =
      (store.records.filter (closedWindow org dim s e)).length := by
  unfold getUsageSummary
  simp only [List.length_map, List.length_insertionSort]
  rw [quad_filter_eq_closedWindow]

lemma trackUsage_insert_of_no_triple (org dim key : String) (q : Int) (ts : Nat)
    (store : UsageStore) (hkey : key ≠ "")
    (h0 : tripleCount store.records org dim key = 0) :
    trackUsage org store dim q ts (some key) =
      insertUsage store org dim q ts (some key) := by
  simp [trackUsage, hkey, filterTriple_nil_of_count_zero h0, singleRow]

lemma filterTriple_append_matching (l : List UsageRecord) (org dim key : String)
    (r : UsageRecord) (h0 : tripleCount l org dim key = 0)
    (h1 : r.organization_id = org) (h2 : r.dimension = dim)
    (h3 : r.stripe_usage_record_id = some key) :
    filterTriple (l ++ [r]) org dim key = [r] := by
  rw [filterTriple_append, filterTriple_nil_of_count_zero h0]
  simp [filterTriple, h1, h2, h3]

lemma trackUsage_dup_after_insert (org dim key : String) (q : Int) (ts : Nat)
    (store : UsageStore) (hkey : key ≠ "")
    (h0 : tripleCount store.records org dim key = 0) :
    trackUsage org (trackUsage org store dim q ts (some key)).2 dim q ts (some key)
      = ({ id := (trackUsage org store dim q ts (some key)).1.id,
           alreadyRecorded := true },
         (trackUsage org store dim q ts (some key)).2) := by
  rw [trackUsage_insert_of_no_triple org dim key q ts store hkey h0]
  simp only [trackUsage, insertUsage, hkey, ite_false]
  rw [filterTriple_append_matching store.records org dim key _ h0 rfl rfl rfl]
  simp [singleRow]

/-- Counterexample to C1 as stated: the empty string is a non-null
idempotency key, but the source's `if (idempotencyKey)` guard is JS
truthiness, so at key `""` the duplicate check is skipped entirely: after a
first call inserted the `(o, d, "")` record, the identical retry does NOT
return the existing id with `alreadyRecorded = true` — it reports a fresh
insert and writes a second record for the triple. -/
theorem trackUsage_empty_key_retry_inserts_counterexample :
    (trackUsage "o" (trackUsage "o" UsageStore.empty "d" 5 3 (some "")).2
        "d" 5 3 (some "")).1.alreadyRecorded = false
    ∧ tripleCount (trackUsage "o"
        (trackUsage "o" UsageStore.empty "d" 5 3 (some "")).2
        "d" 5 3 (some "")).2.records "o" "d" "" = 2 := by decide

/-- C1, amended: for every organization, dimension, quantity `q ≥ 0` and
non-null, NON-EMPTY idempotency key (the source's `if (idempotencyKey)`
truthiness guard skips the duplicate check for the empty-string key, so `""`
behaves like no key at all and every retry inserts): starting from a store
with no record for the (organization, dimension, key) triple, `trackUsage`
inserts exactly one record (`alreadyRecorded = false`); the retried call
returns the inserted record's id with `alreadyRecorded = true` and leaves the
store untouched, so any number of sequential retries with the same arguments
leaves the store — and hence the single record — unchanged, and
`getUsageSummary` over any window containing the record's timestamp counts
its quantity exactly once (the prior total plus `q`, however many retries
happened). -/
theorem trackUsage_idempotent_under_retries (org dim key : String) (q : Int)
    (ts s e : Nat) (store : UsageStore) (_hq : 0 ≤ q) (hkey : key ≠ "")
    (h0 : tripleCount store.records org dim key = 0)
    (hs : s ≤ ts) (he : ts ≤ e) :
    (trackUsage org store dim q ts (some key)).1.alreadyRecorded = false
    ∧ tripleCount (trackUsage org store dim q ts (some key)).2.records org dim key = 1
    ∧ trackUsage org (trackUsage org store dim q ts (some key)).2 dim q ts (some key)
        = ({ id := (trackUsage org store dim q ts (some key)).1.id,
             alreadyRecorded := true },
           (trackUsage org store dim q ts (some key)).2)
    ∧ (∀ n : Nat,
        trackRetries org dim q ts key n (trackUsage org store dim q ts (some key)).2
          = (trackUsage org store dim q ts (some key)).2)
    ∧ (getUsageSummary org (trackUsage org store dim q ts (some key)).2 dim s e).totalUsage
        = (getUsageSummary org store dim s e).totalUsage + q := by
  have hins := trackUsage_insert_of_no_triple org dim key q ts store hkey h0
  have hdup := trackUsage_dup_after_insert org dim key q ts store hkey h0
  refine ⟨by rw [hins]; rfl, ?_, hdup, ?_, ?_⟩
  · rw [hins]
    show (filterTriple (store.records ++ _) org dim key).length = 1
    rw [filterTriple_append_matching store.records org dim key _ h0 rfl rfl rfl]
    rfl
  · intro n
    induction n with
    | zero => rfl
    | succ m ih =>
      show trackRetries org dim q ts key m _ = _
      rw [hdup]
      exact ih
  · rw [hins]
    rw [getUsageSummary_totalUsage, getUsageSummary_totalUsage]
    show ((((store.records ++ _).filter _).map _).sum : Int) = _
    rw [List.filter_append, List.map_append, List.sum_append]
    simp [closedWindow, hs, he]

/-- Witness for C1 at a concrete input. -/
theorem trackUsage_idempotent_under_retries_witness :
    (trackUsage "o" UsageStore.empty "d" 5 3 (some "k")).1.alreadyRecorded = false
    ∧ tripleCount (trackUsage "o" UsageStore.empty "d" 5 3 (some "k")).2.records "o" "d" "k" = 1
    ∧ trackUsage "o" (trackUsage "o" UsageStore.empty "d" 5 3 (some "k")).2 "d" 5 3 (some "k")
        = ({ id := (trackUsage "o" UsageStore.empty "d" 5 3 (some "k")).1.id,
             alreadyRecorded := true },
           (trackUsage "o" UsageStore.empty "d" 5 3 (some "k")).2)
    ∧ (∀ n : Nat,
        trackRetries "o" "d" 5 3 "k" n (trackUsage "o" UsageStore.empty "d" 5 3 (some "k")).2
          = (trackUsage "o" UsageStore.empty "d" 5 3 (some "k")).2)
    ∧ (getUsageSummary "o" (trackUsage "o" UsageStore.empty "d" 5 3 (some "k")).2 "d" 0 10).totalUsage
        = (getUsageSummary "o" UsageStore.empty "d" 0 10).totalUsage + 5 :=
  trackUsage_idempotent_under_retries "o" "d" "k" 5 3 0 10 UsageStore.empty
    (by decide) (by decide) (by decide) (by decide) (by decide)

/-- C2. For every subscription created/updated event whose metadata carries an
organization id, every organization row written by `handleSubscriptionUpdate`
(i.e. every row of the result bearing that id) satisfies:
`subscription_status` is the provider status unchanged; `seat_count` is the
quantity of the per-seat-priced line item (a missing `quantity` on that item
reads as 0) or 0 when no such item exists; `subscription_plan` is the plan key
configured with the price id of the line item that is neither the per-seat nor
the metered-usage price, and `none` — not an error — when there is no such
item or its price id matches no known plan. -/
theorem handleSubscriptionUpdate_snapshot (cfg : StripeConfig)
    (sub : Subscription) (organizationId : String) (now : Nat)
    (store : OrgStore)
    (hmeta : sub.metadata_organization_id = some organizationId) :
    ∀ o ∈ handleSubscriptionUpdate cfg sub now store, o.id = organizationId →
      o.subscription_status = some sub.status
      ∧ (∀ item, findPerSeatItem cfg sub.items = some item →
          o.seat_count = item.quantity.getD 0)
      ∧ (findPerSeatItem cfg sub.items = none → o.seat_count = 0)
      ∧ (∀ baseItem, findBaseItem cfg sub = some baseItem →
          o.subscription_plan = planKeyFor cfg baseItem.priceId)
      ∧ (findBaseItem cfg sub = none → o.subscription_plan = none) := by
  intro o ho hid
  rw [handleSubscriptionUpdate, hmeta] at ho
  obtain ⟨o₀, ho₀, rfl⟩ := List.mem_map.mp ho
  by_cases h : o₀.id = organizationId
  · simp only [h, if_pos rfl] at hid ⊢
    refine ⟨rfl, ?_, ?_, ?_, ?_⟩
    · intro item hitem
      simp [seatCountOf, hitem]
    · intro hnone
      simp [seatCountOf, hnone]
    · intro baseItem hbase
      simp [subscriptionPlanOf, hbase]
    · intro hnone
      simp [subscriptionPlanOf, hnone]
  · simp only [if_neg h] at hid
    exact absurd hid h

/-- Witness for C2 at a concrete input: a subscription with a pro base item,
a per-seat item of quantity 4 and a metered item, applied to a
one-organization store; the written row has the provider status, the
per-seat quantity and the pro plan key. -/
theorem handleSubscriptionUpdate_snapshot_witness :
    ({ id := "org_1", stripe_customer_id := some "cus_1",
       stripe_subscription_id := some "sub_1",
       subscription_status := some "active", subscription_plan := some "pro",
       seat_count := 4, updated_at := 7 } : Organization).subscription_status
      = some "active"
    ∧ ({ id := "org_1", stripe_customer_id := some "cus_1",
         stripe_subscription_id := some "sub_1",
         subscription_status := some "active", subscription_plan := some "pro",
         seat_count := 4, updated_at := 7 } : Organization).seat_count
      = ({ itemId := 2, priceId := "p_seat", quantity := some 4 } : Item).quantity.getD 0
    ∧ ({ id := "org_1", stripe_customer_id := some "cus_1",
         stripe_subscription_id := some "sub_1",
         subscription_status := some "active", subscription_plan := some "pro",
         seat_count := 4, updated_at := 7 } : Organization).subscription_plan
      = planKeyFor
          { plans := [("starter", "p_starter"), ("pro", "p_pro"),
                      ("enterprise", "p_ent")],
            perSeatPriceId := "p_seat", meteredUsagePriceId := "p_meter" }
          ({ itemId := 1, priceId := "p_pro", quantity := some 1 } : Item).priceId := by
  have h := handleSubscriptionUpdate_snapshot
    { plans := [("starter", "p_starter"), ("pro", "p_pro"),
                ("enterprise", "p_ent")],
      perSeatPriceId := "p_seat", meteredUsagePriceId := "p_meter" }
    { id := "sub_1", status := "active",
      metadata_organization_id := some "org_1",
      items := [{ itemId := 1, priceId := "p_pro", quantity := some 1 },
                { itemId := 2, priceId := "p_seat", quantity := some 4 },
                { itemId := 3, priceId := "p_meter", quantity := none }] }
    "org_1" 7
    [{ id := "org_1", stripe_customer_id := some "cus_1",
       stripe_subscription_id := none, subscription_status := none,
       subscription_plan := none, seat_count := 0, updated_at := 0 }]
    rfl
    { id := "org_1", stripe_customer_id := some "cus_1",
      stripe_subscription_id := some "sub_1",
      subscription_status := some "active", subscription_plan := some "pro",
      seat_count := 4, updated_at := 7 }
    (by decide) rfl
  exact ⟨h.1,
    h.2.1 { itemId := 2, priceId := "p_seat", quantity := some 4 } (by decide),
    h.2.2.2.1 { itemId := 1, priceId := "p_pro", quantity := some 1 } (by decide)⟩

/-- C3. For every raw body and signature header: when the signature header is
absent, or signature verification of the raw body against the signing secret
fails (tampered body, wrong signature), the webhook `POST` responds 400 and
the organizations store is returned unchanged — the failure is decided before
the event-kind `switch` runs, for any store, any event mapping and any
clock. -/
theorem webhookPOST_rejects_bad_signature
    (verify : String → String → String → Option Event) (cfg : StripeConfig)
    (body : String) (signature : Option String) (secret : String) (now : Nat)
    (store : OrgStore)
    (hbad : signature = none ∨
      ∀ sig, signature = some sig → verify body sig secret = none) :
    webhookPOST verify cfg body signature secret now store = (400, store) := by
  cases signature with
  | none => rfl
  | some sig =>
    rcases hbad with h | h
    · exact absurd h (by simp)
    · simp [webhookPOST, h sig rfl]

/-- Witness for C3: a verifier that accepts only one exact (body, signature)
pair rejects a tampered body, leaving the one-organization store untouched. -/
theorem webhookPOST_rejects_bad_signature_witness :
    webhookPOST
      (fun body sig _secret =>
        if body = "payload" ∧ sig = "good" then
          some (Event.unrecognized "ping")
        else none)
      { plans := [], perSeatPriceId := "p_seat", meteredUsagePriceId := "p_meter" }
      "tampered-payload" (some "good") "whsec" 7
      [{ id := "org_1", stripe_customer_id := none,
         stripe_subscription_id := none, subscription_status := none,
         subscription_plan := none, seat_count := 0, updated_at := 0 }]
      = (400,
         [{ id := "org_1", stripe_customer_id := none,
            stripe_subscription_id := none, subscription_status := none,
            subscription_plan := none, seat_count := 0, updated_at := 0 }]) :=
  webhookPOST_rejects_bad_signature _ _ _ _ _ _ _
    (Or.inr (by intro sig hsig; cases hsig; decide))

lemma handleSubscriptionUpdate_idem (cfg : StripeConfig) (sub : Subscription)
    (t₁ t₂ : Nat) (store : OrgStore) :
    handleSubscriptionUpdate cfg sub t₂
        (handleSubscriptionUpdate cfg sub t₁ store)
      = handleSubscriptionUpdate cfg sub t₂ store := by
  cases hm : sub.metadata_organization_id with
  | none => simp [handleSubscriptionUpdate, hm]
  | some organizationId =>
    simp only [handleSubscriptionUpdate, hm]
    rw [List.map_map]
    apply List.map_congr_left
    intro o _
    by_cases h : o.id = organizationId <;> simp [h]

lemma handleSubscriptionDeleted_idem (sub : Subscription) (t₁ t₂ : Nat)
    (store : OrgStore) :
    handleSubscriptionDeleted sub t₂ (handleSubscriptionDeleted sub t₁ store)
      = handleSubscriptionDeleted sub t₂ store := by
  cases hm : sub.metadata_organization_id with
  | none => simp [handleSubscriptionDeleted, hm]
  | some organizationId =>
    simp only [handleSubscriptionDeleted, hm]
    rw [List.map_map]
    apply List.map_congr_left
    intro o _
    by_cases h : o.id = organizationId <;> simp [h]

lemma handleInvoicePaymentFailed_idem (invoice : Invoice) (t₁ t₂ : Nat)
    (store : OrgStore) :
    handleInvoicePaymentFailed invoice t₂
        (handleInvoicePaymentFailed invoice t₁ store)
      = handleInvoicePaymentFailed invoice t₂ store := by
  cases hm : invoice.metadata_organization_id with
  | none => simp [handleInvoicePaymentFailed, hm]
  | some organizationId =>
    simp only [handleInvoicePaymentFailed, hm]
    rw [List.map_map]
    apply List.map_congr_left
    intro o _
    by_cases h : o.id = organizationId <;> simp [h]

/-- C4. For every validly signed webhook event and every starting store,
processing the event twice in a row yields the same organizations store as
processing it once: each handler overwrites the snapshot with a value
computed only from the event (and the wall clock of the final processing),
never incrementing or merging prior local state. The two processings may
happen at arbitrary clock readings `t₁` then `t₂`; the result equals a single
processing at `t₂`. -/
theorem processEvent_idempotent (cfg : StripeConfig) (event : Event)
    (t₁ t₂ : Nat) (store : OrgStore) :
    processEvent cfg event t₂ (processEvent cfg event t₁ store)
      = processEvent cfg event t₂ store := by
  cases event with
  | subscriptionCreated sub => exact handleSubscriptionUpdate_idem cfg sub t₁ t₂ store
  | subscriptionUpdated sub => exact handleSubscriptionUpdate_idem cfg sub t₁ t₂ store
  | subscriptionDeleted sub => exact handleSubscriptionDeleted_idem sub t₁ t₂ store
  | invoiceFinalized invoice => rfl
  | invoicePaymentFailed invoice => exact handleInvoicePaymentFailed_idem invoice t₁ t₂ store
  | checkoutCompleted session => rfl
  | unrecognized ty => rfl

/-- C5. For every `invoice.payment_failed` event naming an organization in
the invoice's metadata: the store after processing corresponds row-for-row to
the store before, every row keeps its `subscription_plan`, `seat_count`,
`stripe_subscription_id` and `stripe_customer_id`; the row whose id is the
named organization gets `subscription_status = "past_due"`, and every other
row is completely unchanged. -/
theorem invoicePaymentFailed_past_due_frame (cfg : StripeConfig)
    (invoice : Invoice) (organizationId : String) (now : Nat)
    (store : OrgStore)
    (hmeta : invoice.metadata_organization_id = some organizationId) :
    List.Forall₂
      (fun o o' =>
        o'.subscription_plan = o.subscription_plan
        ∧ o'.seat_count = o.seat_count
        ∧ o'.stripe_subscription_id = o.stripe_subscription_id
        ∧ o'.stripe_customer_id = o.stripe_customer_id
        ∧ (o.id = organizationId → o'.subscription_status = some "past_due")
        ∧ (o.id ≠ organizationId → o' = o))
      store
      (processEvent cfg (Event.invoicePaymentFailed invoice) now store) := by
  simp only [processEvent, handleInvoicePaymentFailed, hmeta]
  induction store with
  | nil => exact List.Forall₂.nil
  | cons o rest ih =>
    refine List.Forall₂.cons ?_ ih
    by_cases h : o.id = organizationId <;> simp [h]

/-- Witness for C5 at a concrete input: an active pro organization with three
seats is moved to `past_due` with plan and seats kept. -/
theorem invoicePaymentFailed_past_due_frame_witness :
    List.Forall₂
      (fun o o' =>
        o'.subscription_plan = o.subscription_plan
        ∧ o'.seat_count = o.seat_count
        ∧ o'.stripe_subscription_id = o.stripe_subscription_id
        ∧ o'.stripe_customer_id = o.stripe_customer_id
        ∧ (o.id = "org_1" → o'.subscription_status = some "past_due")
        ∧ (o.id ≠ "org_1" → o' = o))
      [{ id := "org_1", stripe_customer_id := some "cus_1",
         stripe_subscription_id := some "sub_1",
         subscription_status := some "active",
         subscription_plan := some "pro", seat_count := 3, updated_at := 0 }]
      (processEvent
        { plans := [], perSeatPriceId := "p_seat", meteredUsagePriceId := "p_meter" }
        (Event.invoicePaymentFailed
          { id := "in_1", metadata_organization_id := some "org_1" })
        9
        [{ id := "org_1", stripe_customer_id := some "cus_1",
           stripe_subscription_id := some "sub_1",
           subscription_status := some "active",
           subscription_plan := some "pro", seat_count := 3, updated_at := 0 }]) :=
  invoicePaymentFailed_past_due_frame _ _ "org_1" 9 _ rfl

/-- Core behavior of `updateSubscriptionSeats` on an item list holding at
most one per-seat item, with provider-unique item ids: afterwards the
per-seat items are exactly one item of quantity `seatCount`; the non-per-seat
items are untouched; and the item ids are the old ones (update-in-place
branch, taken exactly when a per-seat item was present) or the old ones plus
the fresh id (add branch, taken exactly when none was present). -/
lemma updateSubscriptionSeats_spec (cfg : StripeConfig) (items : List Item)
    (n fid : Nat)
    (hcount : items.countP (fun i => i.priceId = cfg.perSeatPriceId) ≤ 1)
    (hnodup : (items.map Item.itemId).Nodup) :
    (∃ u, (updateSubscriptionSeats cfg items n fid).filter
        (fun i => i.priceId = cfg.perSeatPriceId) = [u] ∧ u.quantity = some n)
    ∧ (updateSubscriptionSeats cfg items n fid).filter
        (fun i => ¬ i.priceId = cfg.perSeatPriceId)
      = items.filter (fun i => ¬ i.priceId = cfg.perSeatPriceId)
    ∧ ((items.countP (fun i => i.priceId = cfg.perSeatPriceId) = 1
        ∧ (updateSubscriptionSeats cfg items n fid).map Item.itemId
          = items.map Item.itemId)
       ∨ (items.countP (fun i => i.priceId = cfg.perSeatPriceId) = 0
        ∧ (updateSubscriptionSeats cfg items n fid).map Item.itemId
          = items.map Item.itemId ++ [fid])) := by
  unfold updateSubscriptionSeats
  cases hfind : findPerSeatItem cfg items with
  | none =>
    have hnone : ∀ x ∈ items, ¬ x.priceId = cfg.perSeatPriceId := by
      intro x hx
      have := List.find?_eq_none.mp hfind x hx
      simpa using this
    have hmapid : (items.map fun item =>
        ({ itemId := item.itemId, priceId := item.priceId,
           quantity := item.quantity } : Item)) = items := by
      have h1 : (items.map fun item =>
          ({ itemId := item.itemId, priceId := item.priceId,
             quantity := item.quantity } : Item)) = items.map id :=
        List.map_congr_left fun x _ => rfl
      rw [h1, List.map_id]
    rw [hmapid]
    have hfilnil : items.filter (fun i => i.priceId = cfg.perSeatPriceId) = [] :=
      List.filter_eq_nil_iff.mpr (by intro a ha; simpa using hnone a ha)
    refine ⟨⟨{ itemId := fid, priceId := cfg.perSeatPriceId,
               quantity := some n }, ?_, rfl⟩, ?_, Or.inr ⟨?_, ?_⟩⟩
    · rw [List.filter_append, hfilnil]
      simp
    · rw [List.filter_append]
      simp
    · rw [List.countP_eq_length_filter, hfilnil]
      rfl
    · simp
  | some it =>
    have hpit : it.priceId = cfg.perSeatPriceId := by
      simpa using List.find?_some hfind
    have hmem : it ∈ items := List.mem_of_find?_eq_some hfind
    have hfil : items.filter (fun i => i.priceId = cfg.perSeatPriceId) = [it] := by
      have hmemf : it ∈ items.filter (fun i => i.priceId = cfg.perSeatPriceId) :=
        List.mem_filter.mpr ⟨hmem, by simpa using hpit⟩
      have hlen : (items.filter (fun i => i.priceId = cfg.perSeatPriceId)).length ≤ 1 := by
        rw [← List.countP_eq_length_filter]
        exact hcount
      cases hf : items.filter (fun i => i.priceId = cfg.perSeatPriceId) with
      | nil => rw [hf] at hmemf; simp at hmemf
      | cons a as =>
        rw [hf] at hmemf hlen
        have has : as = [] := by
          cases as with
          | nil => rfl
          | cons b bs => simp at hlen
        subst has
        simp only [List.mem_singleton] at hmemf
        rw [hmemf]
    obtain ⟨l₁, l₂, hsplit, hl₁, _, hl₂nil⟩ := List.filter_eq_cons_iff.mp hfil
    have hl₂ := List.filter_eq_nil_iff.mp hl₂nil
    subst hsplit
    rw [List.map_append, List.map_cons, List.nodup_append] at hnodup
    obtain ⟨hn₁, hn₂, hdisj⟩ := hnodup
    have hitid₁ : ∀ j ∈ l₁, ¬ j.itemId = it.itemId := by
      intro j hj he
      exact hdisj (List.mem_map_of_mem Item.itemId hj)
        (he ▸ List.mem_cons_self it.itemId (l₂.map Item.itemId))
    have hitid₂ : ∀ j ∈ l₂, ¬ j.itemId = it.itemId := by
      intro j hj he
      exact (List.nodup_cons.mp hn₂).1 (he ▸ List.mem_map_of_mem Item.itemId hj)
    have hmap₁ : (l₁.map fun item =>
        if item.itemId = it.itemId then { item with quantity := some n }
        else item) = l₁ := by
      have h1 : (l₁.map fun item =>
          if item.itemId = it.itemId then { item with quantity := some n }
          else item) = l₁.map id :=
        List.map_congr_left fun j hj => if_neg (hitid₁ j hj)
      rw [h1, List.map_id]
    have hmap₂ : (l₂.map fun item =>
        if item.itemId = it.itemId then { item with quantity := some n }
        else item) = l₂ := by
      have h1 : (l₂.map fun item =>
          if item.itemId = it.itemId then { item with quantity := some n }
          else item) = l₂.map id :=
        List.map_congr_left fun j hj => if_neg (hitid₂ j hj)
      rw [h1, List.map_id]
    dsimp only
    rw [List.map_append, List.map_cons, hmap₁, hmap₂, if_pos rfl]
    have hfl₁p : l₁.filter (fun i => i.priceId = cfg.perSeatPriceId) = [] :=
      List.filter_eq_nil_iff.mpr hl₁
    refine ⟨⟨{ it with quantity := some n }, ?_, rfl⟩, ?_, Or.inl ⟨?_, ?_⟩⟩
    · rw [List.filter_append, hfl₁p]
      simp [hpit, hl₂nil]
    · rw [List.filter_append, List.filter_append]
      simp [hpit]
    · rw [List.countP_eq_length_filter, hfil]
      rfl
    · simp

/-- C6. For every subscription whose items hold at most one per-seat line
item (with provider-unique item ids and fresh ids for added items) and every
seat count `n ≥ 0` (seat counts are `Nat` here; the route-level `Int` check
covers the negatives): after `updateSubscriptionSeats` the subscription has
exactly one per-seat line item and its quantity is `n` — updated in place
when one existed, added as one new item otherwise; non-per-seat items are
untouched. A second call with `m` updates that same item to `m` and never
adds a second item (the item count does not grow). A negative seat count is
rejected by the `update-seats` route with a 400 before any provider call is
made. -/
theorem setSeats_exactly_one_per_seat_item (cfg : StripeConfig)
    (items : List Item) (n m fid fid₂ : Nat)
    (hcount : items.countP (fun i => i.priceId = cfg.perSeatPriceId) ≤ 1)
    (hnodup : (items.map Item.itemId).Nodup)
    (hfresh : fid ∉ items.map Item.itemId)
    (hfid₂ne : fid₂ ≠ fid) (hfid₂mem : fid₂ ∉ items.map Item.itemId) :
    (updateSubscriptionSeats cfg items n fid).countP
        (fun i => i.priceId = cfg.perSeatPriceId) = 1
    ∧ (∀ i ∈ updateSubscriptionSeats cfg items n fid,
        i.priceId = cfg.perSeatPriceId → i.quantity = some n)
    ∧ (updateSubscriptionSeats cfg items n fid).filter
        (fun i => ¬ i.priceId = cfg.perSeatPriceId)
      = items.filter (fun i => ¬ i.priceId = cfg.perSeatPriceId)
    ∧ (updateSubscriptionSeats cfg
        (updateSubscriptionSeats cfg items n fid) m fid₂).countP
        (fun i => i.priceId = cfg.perSeatPriceId) = 1
    ∧ (∀ i ∈ updateSubscriptionSeats cfg
        (updateSubscriptionSeats cfg items n fid) m fid₂,
        i.priceId = cfg.perSeatPriceId → i.quantity = some m)
    ∧ (updateSubscriptionSeats cfg
        (updateSubscriptionSeats cfg items n fid) m fid₂).length
      = (updateSubscriptionSeats cfg items n fid).length
    ∧ (∀ (oid : Option String) (q : Int) (accessOk : Bool)
        (subId : Option String), jsStrFalsy oid = false → q < 0 →
        updateSeatsRoute oid (some q) accessOk subId
          = { status := 400, providerCalled := false }) := by
  obtain ⟨⟨u, hu, huq⟩, hkeep1, hids1⟩ :=
    updateSubscriptionSeats_spec cfg items n fid hcount hnodup
  have hc1 : (updateSubscriptionSeats cfg items n fid).countP
      (fun i => i.priceId = cfg.perSeatPriceId) = 1 := by
    rw [List.countP_eq_length_filter, hu]
    rfl
  have hnodup1 : ((updateSubscriptionSeats cfg items n fid).map Item.itemId).Nodup := by
    rcases hids1 with ⟨_, he⟩ | ⟨_, he⟩
    · rw [he]; exact hnodup
    · rw [he, List.nodup_append]
      refine ⟨hnodup, by simp, ?_⟩
      intro a ha hb
      simp only [List.mem_singleton] at hb
      subst hb
      exact hfresh ha
  have hfid₂1 : fid₂ ∉ (updateSubscriptionSeats cfg items n fid).map Item.itemId := by
    rcases hids1 with ⟨_, he⟩ | ⟨_, he⟩
    · rw [he]; exact hfid₂mem
    · rw [he]
      intro hmem
      rcases List.mem_append.mp hmem with h | h
      · exact hfid₂mem h
      · simp only [List.mem_singleton] at h
        exact hfid₂ne h
  obtain ⟨⟨v, hv, hvq⟩, hkeep2, hids2⟩ :=
    updateSubscriptionSeats_spec cfg (updateSubscriptionSeats cfg items n fid)
      m fid₂ (le_of_eq hc1) hnodup1
  have hc2 : (updateSubscriptionSeats cfg
      (updateSubscriptionSeats cfg items n fid) m fid₂).countP
      (fun i => i.priceId = cfg.perSeatPriceId) = 1 := by
    rw [List.countP_eq_length_filter, hv]
    rfl
  have hlen2 : (updateSubscriptionSeats cfg
      (updateSubscriptionSeats cfg items n fid) m fid₂).length
      = (updateSubscriptionSeats cfg items n fid).length := by
    rcases hids2 with ⟨_, he⟩ | ⟨hzero, _⟩
    · have := congrArg List.length he
      simpa using this
    · rw [hc1] at hzero
      cases hzero
  refine ⟨hc1, ?_, hkeep1, hc2, ?_, hlen2, ?_⟩
  · intro i hi hp
    have hmem : i ∈ (updateSubscriptionSeats cfg items n fid).filter
        (fun i => i.priceId = cfg.perSeatPriceId) :=
      List.mem_filter.mpr ⟨hi, by simpa using hp⟩
    rw [hu] at hmem
    simp only [List.mem_singleton] at hmem
    rw [hmem]
    exact huq
  · intro i hi hp
    have hmem : i ∈ (updateSubscriptionSeats cfg
        (updateSubscriptionSeats cfg items n fid) m fid₂).filter
        (fun i => i.priceId = cfg.perSeatPriceId) :=
      List.mem_filter.mpr ⟨hi, by simpa using hp⟩
    rw [hv] at hmem
    simp only [List.mem_singleton] at hmem
    rw [hmem]
    exact hvq
  · intro oid q accessOk subId hfalsy hq
    simp [updateSeatsRoute, hfalsy, hq]

/-- Witness for C6 at a concrete input: a subscription with one pro base item
and no per-seat item; seats set to 3 then 5; plus the concrete negative-route
rejection. -/
theorem setSeats_exactly_one_per_seat_item_witness :
    (updateSubscriptionSeats
        { plans := [("pro", "p_pro")], perSeatPriceId := "p_seat",
          meteredUsagePriceId := "p_meter" }
        [{ itemId := 1, priceId := "p_pro", quantity := some 1 }] 3 10).countP
        (fun i => i.priceId = "p_seat") = 1
    ∧ (∀ i ∈ updateSubscriptionSeats
        { plans := [("pro", "p_pro")], perSeatPriceId := "p_seat",
          meteredUsagePriceId := "p_meter" }
        [{ itemId := 1, priceId := "p_pro", quantity := some 1 }] 3 10,
        i.priceId = "p_seat" → i.quantity = some 3)
    ∧ (updateSubscriptionSeats
        { plans := [("pro", "p_pro")], perSeatPriceId := "p_seat",
          meteredUsagePriceId := "p_meter" }
        [{ itemId := 1, priceId := "p_pro", quantity := some 1 }] 3 10).filter
        (fun i => ¬ i.priceId = "p_seat")
      = [{ itemId := 1, priceId := "p_pro", quantity := some 1 }].filter
        (fun i => ¬ i.priceId = "p_seat")
    ∧ (updateSubscriptionSeats
        { plans := [("pro", "p_pro")], perSeatPriceId := "p_seat",
          meteredUsagePriceId := "p_meter" }
        (updateSubscriptionSeats
          { plans := [("pro", "p_pro")], perSeatPriceId := "p_seat",
            meteredUsagePriceId := "p_meter" }
          [{ itemId := 1, priceId := "p_pro", quantity := some 1 }] 3 10)
        5 11).countP (fun i => i.priceId = "p_seat") = 1
    ∧ (∀ i ∈ updateSubscriptionSeats
        { plans := [("pro", "p_pro")], perSeatPriceId := "p_seat",
          meteredUsagePriceId := "p_meter" }
        (updateSubscriptionSeats
          { plans := [("pro", "p_pro")], perSeatPriceId := "p_seat",
            meteredUsagePriceId := "p_meter" }
          [{ itemId := 1, priceId := "p_pro", quantity := some 1 }] 3 10)
        5 11,
        i.priceId = "p_seat" → i.quantity = some 5)
    ∧ (updateSubscriptionSeats
        { plans := [("pro", "p_pro")], perSeatPriceId := "p_seat",
          meteredUsagePriceId := "p_meter" }
        (updateSubscriptionSeats
          { plans := [("pro", "p_pro")], perSeatPriceId := "p_seat",
            meteredUsagePriceId := "p_meter" }
          [{ itemId := 1, priceId := "p_pro", quantity := some 1 }] 3 10)
        5 11).length
      = (updateSubscriptionSeats
          { plans := [("pro", "p_pro")], perSeatPriceId := "p_seat",
            meteredUsagePriceId := "p_meter" }
          [{ itemId := 1, priceId := "p_pro", quantity := some 1 }] 3 10).length
    ∧ (∀ (oid : Option String) (q : Int) (accessOk : Bool)
        (subId : Option String), jsStrFalsy oid = false → q < 0 →
        updateSeatsRoute oid (some q) accessOk subId
          = { status := 400, providerCalled := false }) :=
  setSeats_exactly_one_per_seat_item
    { plans := [("pro", "p_pro")], perSeatPriceId := "p_seat",
      meteredUsagePriceId := "p_meter" }
    [{ itemId := 1, priceId := "p_pro", quantity := some 1 }] 3 5 10 11
    (by decide) (by decide) (by decide) (by decide) (by decide)

/-- Counterexample to C7 as stated: a record whose timestamp equals the
window's end. The claim says `summarize` uses the half-open interval
`[start, end)` and excludes it; `getUsageSummary` uses `.lte` and counts it
(count 1, total 5), where the half-open semantics would report count 0,
total 0. -/
theorem getUsageSummary_endpoint_included_counterexample :
    (getUsageSummary "o"
        { nextId := 1,
          records := [{ id := 0, organization_id := "o", dimension := "d",
                        quantity := 5, timestamp := 10,
                        stripe_usage_record_id := none }] }
        "d" 0 10).recordCount = 1
    ∧ (getUsageSummary "o"
        { nextId := 1,
          records := [{ id := 0, organization_id := "o", dimension := "d",
                        quantity := 5, timestamp := 10,
                        stripe_usage_record_id := none }] }
        "d" 0 10).totalUsage = 5
    ∧ (specSummarizeHalfOpen "o"
        { nextId := 1,
          records := [{ id := 0, organization_id := "o", dimension := "d",
                        quantity := 5, timestamp := 10,
                        stripe_usage_record_id := none }] }
        "d" 0 10).2 = 0
    ∧ (specSummarizeHalfOpen "o"
        { nextId := 1,
          records := [{ id := 0, organization_id := "o", dimension := "d",
                        quantity := 5, timestamp := 10,
                        stripe_usage_record_id := none }] }
        "d" 0 10).1 = 0 := by decide

/-- C7, amended: `getUsageSummary` returns the sum and count of `quantity`
over exactly those records whose timestamp lies in the CLOSED interval
`[start, end]` — records with timestamp equal to `end` are included (the
query uses `.lte`, not `.lt`) — and returns the records ordered by timestamp
ascending (a sorted permutation of the rows in the window). -/
theorem getUsageSummary_closed_interval (org dimension : String)
    (store : UsageStore) (startDate endDate : Nat) :
    (getUsageSummary org store dimension startDate endDate).totalUsage
      = ((store.records.filter
          (closedWindow org dimension startDate endDate)).map
          UsageRecord.quantity).sum
    ∧ (getUsageSummary org store dimension startDate endDate).recordCount
      = (store.records.filter
          (closedWindow org dimension startDate endDate)).length
    ∧ (getUsageSummary org store dimension startDate endDate).records.Sorted
        (fun a b => a.timestamp ≤ b.timestamp)
    ∧ (getUsageSummary org store dimension startDate endDate).records.Perm
        ((store.records.filter
          (closedWindow org dimension startDate endDate)).map
          fun r => ({ quantity := r.quantity, timestamp := r.timestamp } : SummaryRow)) := by
  refine ⟨getUsageSummary_totalUsage org dimension store startDate endDate,
    getUsageSummary_recordCount org dimension store startDate endDate, ?_, ?_⟩
  · unfold getUsageSummary
    simp only [List.Sorted, List.pairwise_map]
    exact List.sorted_insertionSort tsLe _
  · unfold getUsageSummary
    simp only
    rw [quad_filter_eq_closedWindow]
    exact (List.perm_insertionSort tsLe _).map _

/-- Counterexample to C8 as stated: `UsageTracker.trackUsage` (the ledger's
`recordUsage`) called with quantity −5 is not rejected — it returns a
success result (`alreadyRecorded = false`) and writes the usage record with
the negative quantity as given. -/
theorem trackUsage_negative_written_counterexample :
    (trackUsage "o" UsageStore.empty "d" (-5) 0 none).1
      = { id := 0, alreadyRecorded := false }
    ∧ (trackUsage "o" UsageStore.empty "d" (-5) 0 none).2.records
      = [{ id := 0, organization_id := "o", dimension := "d", quantity := -5,
           timestamp := 0, stripe_usage_record_id := none }] := by decide

/-- C8, amended: only the `report-usage` HTTP route rejects a negative
quantity — synchronously with a 400, before the provider is called and
before any usage row is written; `UsageTracker.trackUsage` itself performs no
quantity validation and, when no duplicate key short-circuits it, writes the
record with the negative quantity unclamped. -/
theorem negative_quantity_rejected_at_route_only (oid dimField : Option String)
    (q : Int) (accessOk : Bool) (subId : Option String) (org dimension : String)
    (store : UsageStore) (ts : Nat)
    (hq : q < 0) (ho : jsStrFalsy oid = false) (hd : jsStrFalsy dimField = false) :
    reportUsageRoute oid dimField (some q) accessOk subId
      = { status := 400, providerCalled := false, rowInserted := false }
    ∧ (trackUsage org store dimension q ts none).1.alreadyRecorded = false
    ∧ (trackUsage org store dimension q ts none).2.records
      = store.records ++
        [{ id := store.nextId, organization_id := org, dimension := dimension,
           quantity := q, timestamp := ts, stripe_usage_record_id := none }] := by
  refine ⟨?_, rfl, rfl⟩
  simp [reportUsageRoute, ho, hd, hq]

/-- Witness for C8's amended statement at a concrete input. -/
theorem negative_quantity_rejected_at_route_only_witness :
    reportUsageRoute (some "org_1") (some "d") (some (-5)) true (some "sub_1")
      = { status := 400, providerCalled := false, rowInserted := false }
    ∧ (trackUsage "o" UsageStore.empty "d" (-5) 7 none).1.alreadyRecorded = false
    ∧ (trackUsage "o" UsageStore.empty "d" (-5) 7 none).2.records
      = UsageStore.empty.records ++
        [{ id := UsageStore.empty.nextId, organization_id := "o",
           dimension := "d", quantity := -5, timestamp := 7,
           stripe_usage_record_id := none }] :=
  negative_quantity_rejected_at_route_only (some "org_1") (some "d") (-5) true
    (some "sub_1") "o" "d" UsageStore.empty 7 (by decide) (by decide) (by decide)

lemma countP_enumFrom_snd {α : Type} (g : α → Bool) (l : List α) (k : Nat) :
    ((List.enumFrom k l).countP fun p => g p.2) = l.countP g := by
  induction l generalizing k with
  | nil => rfl
  | cons x xs ih => simp [List.enumFrom, List.countP_cons, ih]

/-- Counterexample to C9 as stated: with one `(o, d, k)` record already in the
store (written by `trackUsage`), a batch containing an item with the same
dimension and idempotency key is inserted anyway — the store ends with two
records for the triple — while a single `trackUsage` call with the same item
performs the duplicate check and leaves the store unchanged. -/
theorem batchTrackUsage_no_duplicate_check_counterexample :
    tripleCount (batchTrackUsage "o"
        (trackUsage "o" UsageStore.empty "d" 5 3 (some "k")).2
        [{ dimension := "d", quantity := 7, timestamp := 4,
           idempotencyKey := some "k" }]).2.records "o" "d" "k" = 2
    ∧ (trackUsage "o"
        (trackUsage "o" UsageStore.empty "d" 5 3 (some "k")).2
        "d" 7 4 (some "k")).2
      = (trackUsage "o" UsageStore.empty "d" 5 3 (some "k")).2 := by decide

/-- C9, amended: `batchTrackUsage` performs no per-item duplicate check at
all — every input item is mapped to a row and inserted unconditionally in one
store call, so the number of records carrying a given (organization,
dimension, key) triple grows by the number of batch items carrying that
dimension and key, duplicates included; the returned value is the full list
of inserted rows (one per input item, in order), not a per-item outcome
report, and a failing insert rejects the batch as a whole. -/
theorem batchTrackUsage_inserts_unconditionally (org : String)
    (store : UsageStore) (items : List BatchItem) (dimension key : String) :
    tripleCount (batchTrackUsage org store items).2.records org dimension key
      = tripleCount store.records org dimension key
        + items.countP
            (fun it => it.dimension = dimension ∧ it.idempotencyKey = some key)
    ∧ (batchTrackUsage org store items).1.length = items.length
    ∧ (batchTrackUsage org store items).2.records
      = store.records ++ (batchTrackUsage org store items).1 := by
  refine ⟨?_, by simp [batchTrackUsage], rfl⟩
  show tripleCount (store.records ++ _) org dimension key = _
  rw [tripleCount_append]
  congr 1
  show (List.filter _ (List.map _ items.enum)).length = _
  rw [← List.countP_eq_length_filter, List.countP_map]
  show ((List.enumFrom 0 items).countP _) = _
  have hc : ((List.enumFrom 0 items).countP
        ((fun r : UsageRecord =>
          decide (r.organization_id = org ∧ r.dimension = dimension ∧
            r.stripe_usage_record_id = some key)) ∘
          fun p : Nat × BatchItem =>
            ({ id := store.nextId + p.1, organization_id := org,
               dimension := p.2.dimension, quantity := p.2.quantity,
               timestamp := p.2.timestamp,
               stripe_usage_record_id := p.2.idempotencyKey } : UsageRecord)))
      = ((List.enumFrom 0 items).countP fun p : Nat × BatchItem =>
          decide (p.2.dimension = dimension ∧ p.2.idempotencyKey = some key)) :=
    List.countP_congr (by intro a _; simp [Function.comp])
  rw [hc]
  exact countP_enumFrom_snd
    (fun it => decide (it.dimension = dimension ∧ it.idempotencyKey = some key))
    items 0

/-- Counterexample to C10 as stated: the existence check and the insert in
`trackUsage` are two separate store operations, and under the interleaving
check-A, check-B, insert-A, insert-B (schedule `[A, B, A, B]`) both
concurrent calls with the same key pass their checks against the empty store
and both insert: both finish as fresh inserts and the store ends with two
records for the triple. -/
theorem concurrent_trackUsage_both_insert_counterexample :
    (runTwo "o" "d" 5 3 "k" [true, false, true, false]
        CallPhase.start CallPhase.start UsageStore.empty).1
      = CallPhase.finished false
    ∧ (runTwo "o" "d" 5 3 "k" [true, false, true, false]
        CallPhase.start CallPhase.start UsageStore.empty).2.1
      = CallPhase.finished false
    ∧ tripleCount (runTwo "o" "d" 5 3 "k" [true, false, true, false]
        CallPhase.start CallPhase.start UsageStore.empty).2.2.records
        "o" "d" "k" = 2 := by decide

/-- C10, amended: `trackUsage`'s existence check and insert are NOT one
indivisible operation — the interleaving above makes both concurrent calls
insert — but whenever the two calls share a non-empty key (for the
empty-string key the source's `if (idempotencyKey)` truthiness guard skips
the check and even sequential calls each insert) and do not interleave (one
runs to completion before the other starts, schedule `[A, A, B, B]`), at
most one inserts: from a store with no record for the triple, the first call
inserts and finishes fresh, the second observes the duplicate and finishes
with `alreadyRecorded = true`, and the store ends with exactly one record
for the triple. -/
theorem trackUsage_sequential_at_most_one_insert (org dim key : String)
    (q : Int) (ts : Nat) (store : UsageStore) (hkey : key ≠ "")
    (h0 : tripleCount store.records org dim key = 0) :
    (runTwo org dim q ts key [true, true, false, false]
        CallPhase.start CallPhase.start store).1
      = CallPhase.finished false
    ∧ (runTwo org dim q ts key [true, true, false, false]
        CallPhase.start CallPhase.start store).2.1
      = CallPhase.finished true
    ∧ tripleCount (runTwo org dim q ts key [true, true, false, false]
        CallPhase.start CallPhase.start store).2.2.records org dim key = 1 := by
  have hnil := filterTriple_nil_of_count_zero h0
  have hone := filterTriple_append_matching store.records org dim key
    { id := store.nextId, organization_id := org, dimension := dim,
      quantity := q, timestamp := ts, stripe_usage_record_id := some key }
    h0 rfl rfl rfl
  simp only [runTwo, stepCall, hkey, ite_false, insertUsage, hnil, hone,
    singleRow, Option.map_some', Option.map_none', tripleCount]
  exact ⟨trivial, trivial, rfl⟩

/-- Witness for C10's amended statement at a concrete input. -/
theorem trackUsage_sequential_at_most_one_insert_witness :
    (runTwo "o" "d" 5 3 "k" [true, true, false, false]
        CallPhase.start CallPhase.start UsageStore.empty).1
      = CallPhase.finished false
    ∧ (runTwo "o" "d" 5 3 "k" [true, true, false, false]
        CallPhase.start CallPhase.start UsageStore.empty).2.1
      = CallPhase.finished true
    ∧ tripleCount (runTwo "o" "d" 5 3 "k" [true, true, false, false]
        CallPhase.start CallPhase.start UsageStore.empty).2.2.records
        "o" "d" "k" = 1 :=
  trackUsage_sequential_at_most_one_insert "o" "d" "k" 5 3 UsageStore.empty
    (by decide) (by decide)
